import Mathlib

/-!
Verification of the LMU Times Bot repository core: the backend best-time
submission policy and rate limiter, the recorder lap-filtering loop, the
weather matcher and the session validator, embedded shallowly from the
Python sources.  Times, temperatures and rain percentages are modelled as
rationals; nullable values as `Option`.
-/

/-! ## Backend best-time submission policy (src/Backend/utils/database.py) -/

namespace DB

/-- The `time_data` dict handed to `Database.submit_lap_time`: the keys
`lap`, `sector1`, `sector2`, each possibly absent (`.get` returns `None`). -/
structure TimeData where
  lap : Option ℚ
  sector1 : Option ℚ
  sector2 : Option ℚ
deriving DecidableEq, Repr

/-- One stored row of the `lap_times` table, minus the key columns. -/
structure LapRecord where
  driver_name : String
  car : String
  car_class : String
  lap_time : Option ℚ
  sector1 : Option ℚ
  sector2 : Option ℚ
deriving DecidableEq, Repr

/-- The `lap_times` table of the rewritten backend keyed by
`(track, user_id)`: at most one row per key (the `SELECT ... WHERE track
= ? AND user_id = ?` / `UPDATE ... WHERE id = ?` discipline of
`Database.submit_lap_time` maintains this). -/
def LapStore : Type := String → String → Option LapRecord

/-- The update guard of `Database.submit_lap_time`
(src/Backend/utils/database.py line 177):
`new_lap is not None and (existing_lap is None or new_lap < existing_lap)`,
after the `new_lap is not None` test has been discharged. -/
def betterThan (new_lap : ℚ) (existing_lap : Option ℚ) : Bool :=
  match existing_lap with
  | none => true
  | some el => new_lap < el

/-- Shallow embedding of `Database.submit_lap_time`
(src/Backend/utils/database.py lines 165-203).  Returns the Python return
value and the table after the call. -/
def submit_lap_time (store : LapStore) (track user_id driver_name car car_class : String)
    (time_data : TimeData) : Bool × LapStore :=
  let new_lap := time_data.lap
  match store track user_id with
  | some existing =>
      match new_lap with
      | none => (false, store)
      | some nl =>
          if betterThan nl existing.lap_time then
            (true, fun t u =>
              if t = track ∧ u = user_id then
                some ⟨driver_name, car, car_class, some nl, time_data.sector1, time_data.sector2⟩
              else store t u)
          else
            (false, store)
  | none =>
      (true, fun t u =>
        if t = track ∧ u = user_id then
          some ⟨driver_name, car, car_class, new_lap, time_data.sector1, time_data.sector2⟩
        else store t u)

/-- Arguments of one `submit_lap_time` call against a fixed (track, user). -/
structure SubmitCall where
  driver_name : String
  car : String
  car_class : String
  time_data : TimeData
deriving DecidableEq, Repr

/-- Run a sequence of submissions for the same `(track, user_id)` pair. -/
def run_submits (store : LapStore) (track user_id : String) : List SubmitCall → LapStore
  | [] => store
  | c :: cs =>
      run_submits
        (submit_lap_time store track user_id c.driver_name c.car c.car_class c.time_data).2
        track user_id cs

/-- Order on nullable lap times in which `none` (SQL NULL) is worse than
any real value: `lapLE a b` means a is at least as good (small) as b. -/
def lapLE : Option ℚ → Option ℚ → Prop
  | _, none => True
  | none, some _ => False
  | some a, some b => a ≤ b

theorem lapLE_refl (x : Option ℚ) : lapLE x x := by
  cases x <;> simp [lapLE]

theorem lapLE_trans {x y z : Option ℚ} (h1 : lapLE x y) (h2 : lapLE y z) : lapLE x z := by
  cases x <;> cases y <;> cases z <;> simp_all [lapLE]
  exact le_trans h1 h2

end DB

/-! ## Original backend submission (src/Backend/database.py, dead update branch) -/

namespace DBOld

/-- One full row of the original `lap_times` table (rows are appended with
an autoincrement id, so several rows per (track, user) can exist). -/
structure LapRow where
  track : String
  user_id : String
  driver_name : String
  car : String
  car_class : String
  lap_time : Option ℚ
  sector1 : Option ℚ
  sector2 : Option ℚ
deriving DecidableEq, Repr

/-- Shallow embedding of the original `Database.submit_lap_time`
(src/Backend/database.py lines 137-179), including its
`if existing: existing = False` line, which forces the just-fetched row to
a falsy value before the update-branch guard reads it. -/
def old_submit_lap_time (rows : List LapRow)
    (track user_id driver_name car car_class : String) (time_data : DB.TimeData) :
    Bool × List LapRow :=
  let new_lap := time_data.lap
  let fetched := rows.find? (fun r => r.track = track ∧ r.user_id = user_id)
  let existing : Option LapRow := if fetched.isSome then none else fetched
  match existing with
  | some e =>
      match new_lap with
      | none => (false, rows)
      | some nl =>
          if DB.betterThan nl e.lap_time then
            (true, rows.map (fun r =>
              if r = e then
                { r with driver_name := driver_name, car := car, car_class := car_class,
                         lap_time := some nl, sector1 := time_data.sector1,
                         sector2 := time_data.sector2 }
              else r))
          else (false, rows)
  | none =>
      (true, rows ++ [⟨track, user_id, driver_name, car, car_class, new_lap,
                       time_data.sector1, time_data.sector2⟩])

end DBOld

/-! ## Rate limiter (src/Backend/utils/middleware.py) -/

namespace RateLimit

/-- The three limiter classes of `LIMITS` in middleware.py. -/
inductive LimiterType where
  | general
  | submit
  | auth
deriving DecidableEq, Repr

/-- The `LIMITS` table: (max_requests, window seconds). -/
def LIMITS : LimiterType → ℕ × ℚ
  | .general => (60, 60)
  | .submit => (10, 60)
  | .auth => (10, 60)

/-- Python `int()` applied to a real value: truncation toward zero.
For a rational `q.num / q.den` with positive denominator this is
`Int.tdiv` of numerator by denominator. -/
def pyInt (q : ℚ) : ℤ := q.num.tdiv q.den

/-- Shallow embedding of `check_rate_limit`
(src/Backend/utils/middleware.py lines 36-51) for one identity:
`timestamps` is `store[identifier]` before the call; the result pairs the
Python return value `(is_limited, reset_time)` with `store[identifier]`
after the call. -/
def check_rate_limit (limiter_type : LimiterType) (timestamps : List ℚ) (now : ℚ) :
    (Bool × ℤ) × List ℚ :=
  let max_requests := (LIMITS limiter_type).1
  let window := (LIMITS limiter_type).2
  let cutoff := now - window
  let pruned := timestamps.filter (fun t => cutoff < t)
  if max_requests ≤ pruned.length then
    let oldest := (pruned.min?).getD 0
    let reset_time := pyInt (oldest + window - now)
    ((true, max 0 reset_time), pruned)
  else
    ((false, 0), pruned ++ [now])

/-- Run a sequence of requests (given by their arrival times) through the
limiter for one identity, collecting the per-request results. -/
def run_requests (limiter_type : LimiterType) (timestamps : List ℚ) :
    List ℚ → List (Bool × ℤ) × List ℚ
  | [] => ([], timestamps)
  | now :: rest =>
      let r := check_rate_limit limiter_type timestamps now
      let rs := run_requests limiter_type r.2 rest
      (r.1 :: rs.1, rs.2)

end RateLimit

/-! ## Weather matcher (src/Recorder/config/helpers.py, config/settings.py) -/

namespace Weather

def TEMP_TOLERANCE : ℚ := 1
def RAIN_TOLERANCE : ℚ := 5

/-- One observed or required weather slot: condition code, temperature,
rain chance (the required dict's alternate Sky/Temperature/RainChance keys
denote the same three fields). -/
structure WeatherSlot where
  condition : ℤ
  temperature : ℚ
  rain : ℚ
deriving DecidableEq, Repr

/-- Shallow embedding of `weather_matches`
(src/Recorder/config/helpers.py lines 159-173).  The source enumerates
slots with an index; here the index of the first mismatch is built by
shifting the recursive result by one. -/
def weather_matches : List WeatherSlot → WeatherSlot → Bool × Option ℕ
  | [], _ => (true, none)
  | w :: rest, req =>
      if w.condition ≠ req.condition then (false, some 0)
      else if TEMP_TOLERANCE < |w.temperature - req.temperature| then (false, some 0)
      else if RAIN_TOLERANCE < |w.rain - req.rain| then (false, some 0)
      else
        match weather_matches rest req with
        | (b, none) => (b, none)
        | (b, some i) => (b, some (i + 1))

/-- A single slot passes all three tests of the loop body. -/
def slotMatches (w req : WeatherSlot) : Bool :=
  decide (w.condition = req.condition) &&
  decide (|w.temperature - req.temperature| ≤ TEMP_TOLERANCE) &&
  decide (|w.rain - req.rain| ≤ RAIN_TOLERANCE)

end Weather

/-! ## Recorder lap filtering (src/Recorder/core/session_recorder.py) -/

namespace Recorder

/-- The fields of a standings entry read by the recording loop and the
validator: `bestLapTime`, `bestLapSectorTime1`, `bestLapSectorTime2`
(each possibly absent), `carClass`, `driverName`. -/
structure StandingsEntry where
  bestLapTime : Option ℚ
  bestLapSectorTime1 : Option ℚ
  bestLapSectorTime2 : Option ℚ
  carClass : String
  driverName : String
deriving DecidableEq, Repr

/-- Python truthiness of an optional float: `None` and `0.0` are falsy. -/
def pyTruthy : Option ℚ → Bool
  | none => false
  | some v => v ≠ 0

/-- The lap-filtering checks of one `record_loop` iteration
(src/Recorder/core/session_recorder.py lines 109-131): given the current
session best `fastest` and the standings entry, returns the `(lap, s1, s2)`
triple recorded and submitted, or `none` when the sample is discarded.
Mirrors, in order: `if not lap or lap < 10`, then
`if self.fastest_lap and lap >= self.fastest_lap`, then
`if not s1 or not s2`. -/
def lap_filter (fastest : Option ℚ) (e : StandingsEntry) : Option (ℚ × ℚ × ℚ) :=
  match e.bestLapTime with
  | none => none
  | some lap =>
      if lap = 0 ∨ lap < 10 then none
      else if pyTruthy fastest && decide (fastest.getD 0 ≤ lap) then none
      else
        match e.bestLapSectorTime1, e.bestLapSectorTime2 with
        | some s1, some s2 =>
            if s1 = 0 ∨ s2 = 0 then none else some (lap, s1, s2)
        | _, _ => none

/-- Feed a sequence of standings samples through the loop's lap filter,
threading the session best (`self.fastest_lap`, set to the lap on each
acceptance) and collecting the accepted (submitted) laps in order. -/
def record_laps (fastest : Option ℚ) : List StandingsEntry → List ℚ
  | [] => []
  | e :: rest =>
      match lap_filter fastest e with
      | none => record_laps fastest rest
      | some (lap, _, _) => lap :: record_laps (some lap) rest

end Recorder

/-! ## Session validator (src/Recorder/core/session_validator.py, config/settings.py) -/

namespace Validator

/-- The `CAR_CLASSES` table of src/Recorder/config/settings.py. -/
def CAR_CLASSES : String → Option ℤ
  | "GT3" => some 0
  | "GTE" => some 1
  | "LMP3" => some 2
  | "LMP2" => some 3
  | "LMP2_ELMS" => some 4
  | "Hyper" => some 5
  | _ => none

/-- Leaderboard configuration as consumed by `validate_session`: the
allowed class codes, the required weather and the required grip level
(`lb_info["weather"].get("grip_level")`). -/
structure LBInfo where
  classes : List ℤ
  weather : Weather.WeatherSlot
  grip_level : Option ℤ
deriving DecidableEq, Repr

/-- Snapshot of all the reads `validate_session` performs, in the order it
performs them: the standings after the retry loop (`[]` = still falsy after
10 attempts), the truthiness of the session state, the selected car
signature, the game session string, the leaderboard lookup result, the
weather slots (`[]` = read error), and the grip level. -/
structure SessionSnapshot where
  standings : List Recorder.StandingsEntry
  session_ok : Bool
  selectedCarSig : String
  gameSession : String
  track : String
  lb_info : Option LBInfo
  weather : List Weather.WeatherSlot
  grip_level : Option ℤ

/-- Outcome of `validate_session`: one constructor per `return False`
site, in source order, plus the success result. -/
inductive VResult where
  | failStandings
  | failMultipleDrivers
  | failSessionState
  | failUnknownCar (sig : String)
  | failNotPractice
  | failNoLeaderboard
  | failWrongClass (car_class : String) (allowed : List ℤ)
  | failWeatherRead
  | failWeatherMismatch (bad_idx : Option ℕ)
  | failGripRead
  | failGripMismatch (required current : ℤ)
  | valid (lb : LBInfo) (car : String) (track : String)
deriving DecidableEq, Repr

/-- The class string of the first standings entry,
`standings[0].get("carClass", "")`. -/
def driverClass (s : SessionSnapshot) : String :=
  (s.standings.head?.map Recorder.StandingsEntry.carClass).getD ""

/-- Shallow embedding of `SessionValidator.validate_session`
(src/Recorder/core/session_validator.py lines 64-160) over a snapshot of
its reads; `car_models` is the validator's car-signature table. -/
def validate_session (car_models : String → Option String) (s : SessionSnapshot) : VResult :=
  if s.standings.isEmpty then .failStandings
  else if 1 < s.standings.length then .failMultipleDrivers
  else if ¬ s.session_ok then .failSessionState
  else
    match car_models s.selectedCarSig with
    | none => .failUnknownCar s.selectedCarSig
    | some car =>
        if s.gameSession ≠ "PRACTICE1" then .failNotPractice
        else
          match s.lb_info with
          | none => .failNoLeaderboard
          | some lb =>
              let car_class := driverClass s
              let pass :=
                match CAR_CLASSES car_class with
                | none => false
                | some class_num => decide (class_num ∈ lb.classes)
              if pass = false then .failWrongClass car_class lb.classes
              else if s.weather.isEmpty then .failWeatherRead
              else
                let m := Weather.weather_matches s.weather lb.weather
                if m.1 = false then .failWeatherMismatch m.2
                else
                  match s.grip_level, lb.grip_level with
                  | none, _ => .failGripRead
                  | some _, none => .failGripRead
                  | some g, some rg =>
                      if g ≠ rg then .failGripMismatch rg g
                      else .valid lb car s.track

/-- The class check of `validate_session`: the reported class string maps
to a code and that code is in the configured allowed set. -/
def classAllowed (lb : LBInfo) (car_class : String) : Bool :=
  match CAR_CLASSES car_class with
  | none => false
  | some class_num => decide (class_num ∈ lb.classes)

end Validator

/-! ## Backend submit endpoint (src/Backend/main.py) -/

namespace Api

/-- Python `str.strip()`: drop whitespace from both ends. -/
def pyStrip (s : String) : String :=
  ⟨((s.data.dropWhile Char.isWhitespace).reverse.dropWhile Char.isWhitespace).reverse⟩

/-- JSON body of `POST /leaderboard/track/submit`, with each field
possibly absent.  `time_data = none` also stands for a non-dict or empty
(falsy) value, which the endpoint rejects the same way. -/
structure SubmitBody where
  time_data : Option DB.TimeData
  car : Option String
  driver_name : Option String
  car_class : Option String
deriving DecidableEq, Repr

/-- HTTP response of the endpoint: status plus body message. -/
inductive HttpResponse where
  | badRequest (msg : String)
  | forbidden (msg : String)
  | notFound (msg : String)
  | ok (msg : String)
deriving DecidableEq, Repr

/-- Shallow embedding of `submit_time` (src/Backend/main.py lines 153-248)
for an authenticated request: `track` is the path parameter, `blacklisted`
the result of the blacklist lookup for the request's user, `body` the
parsed JSON body (`none` = unparsable), `leaderboard_exists` the result of
`get_leaderboard(track)` being truthy, and `store`/`user_id` the lap-time
table and the authenticated user's id.  Mirrors the source's check order;
the float conversions succeed by construction since fields are rationals. -/
def submit_time (track : String) (blacklisted : Bool) (body : Option SubmitBody)
    (leaderboard_exists : Bool) (store : DB.LapStore) (user_id : String) :
    HttpResponse × DB.LapStore :=
  if track = "" then (.badRequest "Track parameter required", store)
  else if blacklisted then (.forbidden "You are blacklisted", store)
  else
    match body with
    | none => (.badRequest "Invalid JSON body", store)
    | some b =>
        match b.time_data with
        | none => (.badRequest "time_data is required and must be an object", store)
        | some td =>
            match b.car with
            | none => (.badRequest "car is required and must be a non-empty string", store)
            | some car =>
                if pyStrip car = "" then
                  (.badRequest "car is required and must be a non-empty string", store)
                else
                  match b.driver_name with
                  | none => (.badRequest "driver_name is required and must be a non-empty string", store)
                  | some driver_name =>
                      if pyStrip driver_name = "" then
                        (.badRequest "driver_name is required and must be a non-empty string", store)
                      else
                        match b.car_class with
                        | none => (.badRequest "class is required and must be a non-empty string", store)
                        | some car_class =>
                            if pyStrip car_class = "" then
                              (.badRequest "class is required and must be a non-empty string", store)
                            else
                              match td.lap with
                              | none => (.badRequest "time_data.lap is required", store)
                              | some lap_time =>
                                  match td.sector1 with
                                  | none => (.badRequest "time_data.sector1 is required", store)
                                  | some sector1 =>
                                      match td.sector2 with
                                      | none => (.badRequest "time_data.sector2 is required", store)
                                      | some sector2 =>
                                          if lap_time ≤ 0 then
                                            (.badRequest "lap_time must be greater than 0", store)
                                          else if sector1 ≠ -1 ∧ sector1 ≤ 0 then
                                            (.badRequest "sector1 must be -1 or greater than 0", store)
                                          else if sector2 ≠ -1 ∧ sector2 ≤ 0 then
                                            (.badRequest "sector2 must be -1 or greater than 0", store)
                                          else if 100 < driver_name.length then
                                            (.badRequest "driver_name must not exceed 100 characters", store)
                                          else if 100 < car.length then
                                            (.badRequest "car must not exceed 100 characters", store)
                                          else if 50 < car_class.length then
                                            (.badRequest "class must not exceed 50 characters", store)
                                          else if leaderboard_exists = false then
                                            (.notFound "Leaderboard not found", store)
                                          else
                                            let r := DB.submit_lap_time store track user_id
                                              (pyStrip driver_name) (pyStrip car) (pyStrip car_class)
                                              ⟨some lap_time, some sector1, some sector2⟩
                                            (.ok "Time submitted successfully", r.2)

end Api

/-! ## Recorder backend client and recording loop (src/Recorder/utils/Backend.py, src/Recorder/core/session_recorder.py) -/

namespace Client

/-- Result of `Backend.post`: the parsed JSON (modelled by its `message`
field, `none` = message key absent or dict falsy), the Python `False`
sentinel, or `None`. -/
inductive PostResult where
  | json (message : Option String)
  | fls
  | non
deriving DecidableEq, Repr

/-- Shallow embedding of `Backend.post` (src/Recorder/utils/Backend.py
lines 39-56) as a function of the HTTP response: 200 returns the JSON,
403 and 404 return `False`, anything else returns `None`. -/
def post (status : ℕ) (message : Option String) : PostResult :=
  if status = 200 then .json message
  else if status = 403 ∨ status = 404 then .fls
  else .non

/-- Python truthiness of `data and data.get("message")` for our dict
model: the message key is present and non-empty. -/
def messageTruthy : Option String → Bool
  | none => false
  | some s => s ≠ ""

/-- Shallow embedding of `Backend.submit_time` (src/Recorder/utils/Backend.py
lines 79-92) as a function of the HTTP response it receives:
`some true` = submitted, `some false` = the 403/404 `False` sentinel,
`none` = other failure. -/
def submit_time_client (status : ℕ) (message : Option String) : Option Bool :=
  match post status message with
  | .fls => some false
  | .json m => if messageTruthy m then some true else none
  | .non => none

/-- Result of an LMU adapter call per the external-interface contract:
a value, the `False` disconnect sentinel, or the `None` transient error. -/
inductive AdapterRes (α : Type) where
  | val (a : α)
  | disconnected
  | transientErr
deriving DecidableEq, Repr

/-- Exceptions the Python loop body can raise. -/
inductive PyError where
  | attributeError
  | indexError
deriving DecidableEq, Repr

/-- How one `record_loop` iteration exits (other than by raising):
`setupRetry` = on_error then continue (fixed-setup path),
`sessionEnd`/`disconnect` = terminal callback with its status message,
`waitContinue` = standings `None`, sleep and continue,
`skipSample` = lap filtered out, sleep and continue,
`recorded` = lap accepted and submitted, continue after the cooldown. -/
inductive IterOutcome where
  | setupRetry (msg : String)
  | sessionEnd (msg : String)
  | disconnect (msg : String)
  | waitContinue
  | skipSample
  | recorded (lap s1 s2 : ℚ)
deriving DecidableEq, Repr

/-- Python `"Balanced" in s`. -/
def containsBalanced (s : String) : Bool := (s.splitOn "Balanced").length ≠ 1

/-- The read `session_state.get("inControlOfVehicle", False)`
(src/Recorder/core/session_recorder.py line 90): on a dict it returns the
field (default `False`); on the `False` or `None` sentinels the attribute
access `.get` raises `AttributeError`. -/
def py_get_inControl : AdapterRes (Option Bool) → Except PyError Bool
  | .val info => .ok (info.getD false)
  | .disconnected => .error .attributeError
  | .transientErr => .error .attributeError

/-- Shallow embedding of one iteration of `record_loop`
(src/Recorder/core/session_recorder.py lines 71-148).  Inputs are the
results of the adapter calls the iteration makes (`setupRes`: the
`activeSetup` string, `none` = falsy setup read; `standingsRes`;
`sessionRes`: the game-state dict modelled by its `inControlOfVehicle`
field, possibly absent) together with the loop state (`is_on_fixed`,
`fastest`) and the result `submitRes` of `Backend.submit_time` if a
submission happens.  Returns the updated `is_on_fixed` and the way the
iteration exits, or the exception it raises. -/
def record_iter (fixed_setup : Bool) (setupRes : Option String) (is_on_fixed : Bool)
    (standingsRes : AdapterRes (List Recorder.StandingsEntry))
    (sessionRes : AdapterRes (Option Bool))
    (fastest : Option ℚ) (submitRes : Option Bool) :
    Except PyError (Bool × IterOutcome) := do
  let step1 : Option (Bool × IterOutcome) × Bool :=
    if fixed_setup then
      match setupRes with
      | none => (some (is_on_fixed, .setupRetry "Error reading setup. Trying again..."), is_on_fixed)
      | some setup =>
          if containsBalanced setup = false ∧ is_on_fixed then
            (some (false, .setupRetry "Fixed setup required! Please switch to the default LMU setup (not CDA) to record."), false)
          else if containsBalanced setup ∧ is_on_fixed = false then
            (none, true)
          else (none, is_on_fixed)
    else (none, is_on_fixed)
  match step1.1 with
  | some out => return out
  | none =>
  let is_on_fixed := step1.2
  let inControl ← py_get_inControl sessionRes
  if inControl = false then
    return (is_on_fixed, .sessionEnd "Session ended. Waiting for new session...")
  else
    match standingsRes with
    | .disconnected => return (is_on_fixed, .disconnect "Waiting for LMU...")
    | .transientErr => return (is_on_fixed, .waitContinue)
    | .val entries =>
        match entries with
        | [] => throw .indexError
        | e :: _ =>
            match Recorder.lap_filter fastest e with
            | none => return (is_on_fixed, .skipSample)
            | some (lap, s1, s2) =>
                if submitRes = some false then
                  return (is_on_fixed, .sessionEnd "Submission failed. Blacklisted. Waiting for session end...")
                else
                  return (is_on_fixed, .recorded lap s1 s2)

end Client

/-! ## Helper lemmas for the submission policy -/

theorem DB.submit_mono (store : DB.LapStore) (track uid dn car cc : String)
    (td : DB.TimeData) (r : DB.LapRecord) (h : store track uid = some r) :
    ∃ r', (DB.submit_lap_time store track uid dn car cc td).2 track uid = some r' ∧
      DB.lapLE r'.lap_time r.lap_time := by
  unfold DB.submit_lap_time
  rw [h]
  cases hl : td.lap with
  | none => exact ⟨r, h, DB.lapLE_refl _⟩
  | some nl =>
      by_cases hb : DB.betterThan nl r.lap_time = true
      · refine ⟨⟨dn, car, cc, some nl, td.sector1, td.sector2⟩, ?_, ?_⟩
        · simp [hb]
        · unfold DB.betterThan at hb
          cases hr : r.lap_time with
          | none => simp [DB.lapLE]
          | some el =>
              rw [hr] at hb
              simp only [decide_eq_true_eq] at hb
              simpa [DB.lapLE] using le_of_lt hb
      · simp only [Bool.not_eq_true] at hb
        simp [hb]
        exact ⟨r, h, DB.lapLE_refl _⟩

theorem DB.run_submits_mono (track uid : String) (calls : List DB.SubmitCall) :
    ∀ (store : DB.LapStore) (r : DB.LapRecord), store track uid = some r →
      ∃ r', DB.run_submits store track uid calls track uid = some r' ∧
        DB.lapLE r'.lap_time r.lap_time := by
  induction calls with
  | nil => intro store r h; exact ⟨r, h, DB.lapLE_refl _⟩
  | cons c cs ih =>
      intro store r h
      obtain ⟨r1, h1, hle1⟩ :=
        DB.submit_mono store track uid c.driver_name c.car c.car_class c.time_data r h
      obtain ⟨r2, h2, hle2⟩ := ih _ r1 h1
      exact ⟨r2, h2, DB.lapLE_trans hle2 hle1⟩

/-- C1.  Best-time submission policy of `Database.submit_lap_time`: a call
with no stored record for (track, user) inserts and returns true; with a
stored record, it overwrites (driver_name, car, class, lap and sectors)
and returns true exactly when the new lap is non-null and strictly better
than the stored lap (null stored lap counting as worse than anything), and
otherwise returns false leaving storage unchanged; consequently the stored
lap is non-increasing along any sequence of submissions for the same pair,
and the sequence 90.0, 89.5, 91.0 leaves 89.5 stored with the third call
returning false. -/
theorem claim_C1_best_time_policy :
    (∀ (store : DB.LapStore) (track uid dn car cc : String) (td : DB.TimeData),
      store track uid = none →
        (DB.submit_lap_time store track uid dn car cc td).1 = true ∧
        (DB.submit_lap_time store track uid dn car cc td).2 track uid =
          some ⟨dn, car, cc, td.lap, td.sector1, td.sector2⟩) ∧
    (∀ (store : DB.LapStore) (track uid dn car cc : String) (td : DB.TimeData)
        (r : DB.LapRecord) (nl : ℚ),
      store track uid = some r → td.lap = some nl →
      (r.lap_time = none ∨ ∃ el, r.lap_time = some el ∧ nl < el) →
        (DB.submit_lap_time store track uid dn car cc td).1 = true ∧
        (DB.submit_lap_time store track uid dn car cc td).2 track uid =
          some ⟨dn, car, cc, some nl, td.sector1, td.sector2⟩) ∧
    (∀ (store : DB.LapStore) (track uid dn car cc : String) (td : DB.TimeData)
        (r : DB.LapRecord),
      store track uid = some r →
      (td.lap = none ∨ ∃ nl el, td.lap = some nl ∧ r.lap_time = some el ∧ el ≤ nl) →
        DB.submit_lap_time store track uid dn car cc td = (false, store)) ∧
    (∀ (store : DB.LapStore) (track uid : String) (calls : List DB.SubmitCall)
        (r : DB.LapRecord),
      store track uid = some r →
        ∃ r', DB.run_submits store track uid calls track uid = some r' ∧
          DB.lapLE r'.lap_time r.lap_time) ∧
    (DB.run_submits (fun _ _ => none) "spa" "u1"
        [⟨"D", "C", "GT3", ⟨some 90, some 30, some 60⟩⟩,
         ⟨"D", "C", "GT3", ⟨some (179/2), some 30, some 60⟩⟩,
         ⟨"D", "C", "GT3", ⟨some 91, some 30, some 60⟩⟩] "spa" "u1" =
      some ⟨"D", "C", "GT3", some (179/2), some 30, some 60⟩) ∧
    ((DB.submit_lap_time
        (DB.run_submits (fun _ _ => none) "spa" "u1"
          [⟨"D", "C", "GT3", ⟨some 90, some 30, some 60⟩⟩,
           ⟨"D", "C", "GT3", ⟨some (179/2), some 30, some 60⟩⟩])
        "spa" "u1" "D" "C" "GT3" ⟨some 91, some 30, some 60⟩).1 = false) := by
  refine ⟨?_, ?_, ?_, ?_, ?_, ?_⟩
  · intro store track uid dn car cc td h
    constructor <;> simp [DB.submit_lap_time, h]
  · intro store track uid dn car cc td r nl h hlap hbet
    have hb : DB.betterThan nl r.lap_time = true := by
      unfold DB.betterThan
      rcases hbet with hnone | ⟨el, hel, hlt⟩
      · simp [hnone]
      · simp [hel, hlt]
    constructor <;> simp [DB.submit_lap_time, h, hlap, hb]
  · intro store track uid dn car cc td r h hrej
    rcases hrej with hnone | ⟨nl, el, hnl, hel, hle⟩
    · simp [DB.submit_lap_time, h, hnone]
    · have hb : DB.betterThan nl r.lap_time = false := by
        unfold DB.betterThan
        simp [hel, not_lt.mpr hle]
      simp [DB.submit_lap_time, h, hnl, hb]
  · intro store track uid calls r h
    exact DB.run_submits_mono track uid calls store r h
  · norm_num [DB.run_submits, DB.submit_lap_time, DB.betterThan]
  · norm_num [DB.run_submits, DB.submit_lap_time, DB.betterThan]

/-- A one-record table used to instantiate the policy theorem. -/
def DB.exampleStore : DB.LapStore := fun t u =>
  if t = "spa" ∧ u = "u1" then some ⟨"D", "C", "GT3", some 90, some 30, some 60⟩ else none

theorem DB.exampleStore_lookup :
    DB.exampleStore "spa" "u1" = some ⟨"D", "C", "GT3", some 90, some 30, some 60⟩ := by
  simp [DB.exampleStore]

/-- Witness for C1 at concrete inputs. -/
theorem claim_C1_best_time_policy_witness :
    ((DB.submit_lap_time (fun _ _ => none) "spa" "u1" "D" "C" "GT3"
        ⟨some 90, some 30, some 60⟩).1 = true ∧
      (DB.submit_lap_time (fun _ _ => none) "spa" "u1" "D" "C" "GT3"
        ⟨some 90, some 30, some 60⟩).2 "spa" "u1" =
        some ⟨"D", "C", "GT3", some 90, some 30, some 60⟩) ∧
    ((DB.submit_lap_time DB.exampleStore "spa" "u1" "D" "C" "GT3"
        ⟨some (179/2), some 30, some 60⟩).1 = true ∧
      (DB.submit_lap_time DB.exampleStore "spa" "u1" "D" "C" "GT3"
        ⟨some (179/2), some 30, some 60⟩).2 "spa" "u1" =
        some ⟨"D", "C", "GT3", some (179/2), some 30, some 60⟩) ∧
    (DB.submit_lap_time DB.exampleStore "spa" "u1" "D" "C" "GT3"
        ⟨some 91, some 30, some 60⟩ = (false, DB.exampleStore)) ∧
    (∃ r', DB.run_submits DB.exampleStore "spa" "u1" [] "spa" "u1" = some r' ∧
      DB.lapLE r'.lap_time (some 90)) := by
  refine ⟨?_, ?_, ?_, ?_⟩
  · exact claim_C1_best_time_policy.1 (fun _ _ => none) "spa" "u1" "D" "C" "GT3"
      ⟨some 90, some 30, some 60⟩ rfl
  · exact claim_C1_best_time_policy.2.1 DB.exampleStore "spa" "u1" "D" "C" "GT3"
      ⟨some (179/2), some 30, some 60⟩ ⟨"D", "C", "GT3", some 90, some 30, some 60⟩
      (179/2) DB.exampleStore_lookup rfl (Or.inr ⟨90, rfl, by norm_num⟩)
  · exact claim_C1_best_time_policy.2.2.1 DB.exampleStore "spa" "u1" "D" "C" "GT3"
      ⟨some 91, some 30, some 60⟩ ⟨"D", "C", "GT3", some 90, some 30, some 60⟩
      DB.exampleStore_lookup (Or.inr ⟨91, 90, rfl, rfl, by norm_num⟩)
  · exact claim_C1_best_time_policy.2.2.2.1 DB.exampleStore "spa" "u1" []
      ⟨"D", "C", "GT3", some 90, some 30, some 60⟩ DB.exampleStore_lookup

/-- C2.  In the original `Database.submit_lap_time` of src/Backend/database.py
the update branch is dead: the `if existing: existing = False` line forces
the guard to a falsy value, so every call - also when a row for the
(track, user) pair already exists - takes the insert branch, appends a new
row and returns true. -/
theorem claim_C2_dead_update_branch :
    ∀ (rows : List DBOld.LapRow) (track uid dn car cc : String) (td : DB.TimeData),
      DBOld.old_submit_lap_time rows track uid dn car cc td =
        (true, rows ++ [⟨track, uid, dn, car, cc, td.lap, td.sector1, td.sector2⟩]) := by
  intro rows track uid dn car cc td
  unfold DBOld.old_submit_lap_time
  cases h : rows.find? (fun r => decide (r.track = track ∧ r.user_id = uid)) <;> simp [h]

/-- C3 counterexample.  The claim computes the retry-after value as
`ceil(oldestRemaining + window - now)`, but `check_rate_limit` applies
Python `int()`, which truncates: with the submit budget (10 per 60 s), ten
timestamps at 0 and `now = 59.5`, all ten timestamps survive pruning, the
oldest remaining is 0, the claimed value is `ceil(0 + 60 - 59.5) = 1`, yet
the code returns retry-after 0. -/
theorem claim_C3_rate_limiter_counterexample :
    (RateLimit.check_rate_limit .submit [0, 0, 0, 0, 0, 0, 0, 0, 0, 0] (119/2)).1 = (true, 0) ∧
    ([0, 0, 0, 0, 0, 0, 0, 0, 0, 0] : List ℚ).filter (fun t => (119/2 : ℚ) - 60 < t) =
      [0, 0, 0, 0, 0, 0, 0, 0, 0, 0] ∧
    (([0, 0, 0, 0, 0, 0, 0, 0, 0, 0] : List ℚ).filter
      (fun t => (119/2 : ℚ) - 60 < t)).min? = some 0 ∧
    max 0 ⌈(0 : ℚ) + 60 - 119/2⌉ = (1 : ℤ) ∧ (0 : ℤ) ≠ (1 : ℤ) := by
  refine ⟨?_, ?_, ?_, ?_, by decide⟩
  · norm_num [RateLimit.check_rate_limit, RateLimit.LIMITS, RateLimit.pyInt]
    decide
  · norm_num [List.filter]
  · norm_num [List.filter, List.min?]
  · have h : ⌈(0 : ℚ) + 60 - 119/2⌉ = 1 := by
      rw [Int.ceil_eq_iff]
      constructor <;> norm_num
    rw [h]
    decide

/-- C3 (amended).  `check_rate_limit` prunes the timestamps at or before
`now - window`; if at least `max_requests` remain it returns limited with
retry-after `int(oldestRemaining + window - now)` - Python truncation
toward zero, not the ceiling - clamped to at least 0, recording no new
timestamp; otherwise it appends `now` and returns `(false, 0)`.  With the
submit budget (10 per 60 s), ten instant requests admit, an eleventh at
the same instant is limited with a positive retry-after (60), and a
request after the window has elapsed is admitted again. -/
theorem claim_C3_rate_limiter_amended :
    (∀ (limiter : RateLimit.LimiterType) (ts : List ℚ) (now : ℚ),
      ((RateLimit.LIMITS limiter).1 ≤
          (ts.filter (fun t => now - (RateLimit.LIMITS limiter).2 < t)).length →
        ∃ oldest,
          (ts.filter (fun t => now - (RateLimit.LIMITS limiter).2 < t)).min? = some oldest ∧
          RateLimit.check_rate_limit limiter ts now =
            ((true, max 0 (RateLimit.pyInt (oldest + (RateLimit.LIMITS limiter).2 - now))),
             ts.filter (fun t => now - (RateLimit.LIMITS limiter).2 < t))) ∧
      ((ts.filter (fun t => now - (RateLimit.LIMITS limiter).2 < t)).length <
          (RateLimit.LIMITS limiter).1 →
        RateLimit.check_rate_limit limiter ts now =
          ((false, 0), ts.filter (fun t => now - (RateLimit.LIMITS limiter).2 < t) ++ [now]))) ∧
    ((RateLimit.run_requests .submit [] [0, 0, 0, 0, 0, 0, 0, 0, 0, 0]).1 =
      List.replicate 10 (false, 0)) ∧
    ((RateLimit.check_rate_limit .submit
        (RateLimit.run_requests .submit [] [0, 0, 0, 0, 0, 0, 0, 0, 0, 0]).2 0).1 =
      (true, 60) ∧ (0 : ℤ) < 60) ∧
    ((RateLimit.check_rate_limit .submit
        (RateLimit.check_rate_limit .submit
          (RateLimit.run_requests .submit [] [0, 0, 0, 0, 0, 0, 0, 0, 0, 0]).2 0).2 61).1 =
      (false, 0)) := by
  refine ⟨?_, ?_, ?_, ?_⟩
  · intro limiter ts now
    constructor
    · intro h
      rcases hp : ts.filter (fun t => now - (RateLimit.LIMITS limiter).2 < t) with _ | ⟨a, l⟩
      · rw [hp] at h
        cases limiter <;> simp [RateLimit.LIMITS] at h
      · refine ⟨l.foldl min a, rfl, ?_⟩
        rw [hp] at h
        simp only [RateLimit.check_rate_limit, hp, if_pos h]
        rfl
    · intro h
      simp only [RateLimit.check_rate_limit]
      rw [if_neg (by omega)]
  · norm_num [RateLimit.run_requests, RateLimit.check_rate_limit, RateLimit.LIMITS,
      RateLimit.pyInt, List.replicate]
  · constructor
    · norm_num [RateLimit.run_requests, RateLimit.check_rate_limit, RateLimit.LIMITS,
        RateLimit.pyInt]
    · decide
  · norm_num [RateLimit.run_requests, RateLimit.check_rate_limit, RateLimit.LIMITS,
      RateLimit.pyInt]

/-- Witness for the amended C3 at concrete inputs. -/
theorem claim_C3_rate_limiter_amended_witness :
    (∃ oldest,
      (([0, 0, 0, 0, 0, 0, 0, 0, 0, 0] : List ℚ).filter
        (fun t => (0 : ℚ) - (RateLimit.LIMITS .submit).2 < t)).min? = some oldest ∧
      RateLimit.check_rate_limit .submit [0, 0, 0, 0, 0, 0, 0, 0, 0, 0] 0 =
        ((true, max 0 (RateLimit.pyInt (oldest + (RateLimit.LIMITS .submit).2 - 0))),
         ([0, 0, 0, 0, 0, 0, 0, 0, 0, 0] : List ℚ).filter
           (fun t => (0 : ℚ) - (RateLimit.LIMITS .submit).2 < t))) ∧
    (RateLimit.check_rate_limit .submit [] 0 =
      ((false, 0),
       (([] : List ℚ).filter (fun t => (0 : ℚ) - (RateLimit.LIMITS .submit).2 < t)) ++ [0])) :=
  ⟨(claim_C3_rate_limiter_amended.1 .submit [0, 0, 0, 0, 0, 0, 0, 0, 0, 0] 0).1
      (by norm_num [RateLimit.LIMITS, List.filter]),
   (claim_C3_rate_limiter_amended.1 .submit [] 0).2
      (by norm_num [RateLimit.LIMITS, List.filter])⟩

/-- C4 counterexample.  The claim predicts exactly two accepted
submissions (94.9 then 94.0) for the lap sequence
[95.0, 94.9, 96.0, 94.9, 94.0] from a fresh session, but with no session
best yet the first sample 95.0 passes every filter and is also accepted:
the loop accepts three laps, 95.0, 94.9 and 94.0. -/
theorem claim_C4_recorder_filter_counterexample :
    Recorder.record_laps none
      [⟨some 95, some 30, some 60, "GT3", "D"⟩,
       ⟨some (949/10), some 30, some 60, "GT3", "D"⟩,
       ⟨some 96, some 30, some 60, "GT3", "D"⟩,
       ⟨some (949/10), some 30, some 60, "GT3", "D"⟩,
       ⟨some 94, some 30, some 60, "GT3", "D"⟩] = [95, 949/10, 94] ∧
    ([95, 949/10, 94] : List ℚ) ≠ [949/10, 94] := by
  constructor
  · norm_num [Recorder.record_laps, Recorder.lap_filter, Recorder.pyTruthy]
  · simp

/-- C4 (amended).  The recording loop discards a standings sample when the
lap time is absent or below 10 seconds, when a session best is already set
and the lap is not strictly below it, or when either sector boundary is
missing; feeding [95.0, 94.9, 96.0, 94.9, 94.0] (sectors present) from a
fresh session produces exactly three accepted submissions: 95.0, 94.9,
94.0 (with no session best yet, the first sample is accepted too). -/
theorem claim_C4_recorder_filter_amended :
    (∀ (fastest : Option ℚ) (e : Recorder.StandingsEntry),
      e.bestLapTime = none → Recorder.lap_filter fastest e = none) ∧
    (∀ (fastest : Option ℚ) (e : Recorder.StandingsEntry) (v : ℚ),
      e.bestLapTime = some v → v < 10 → Recorder.lap_filter fastest e = none) ∧
    (∀ (fastest : Option ℚ) (e : Recorder.StandingsEntry) (v f : ℚ),
      e.bestLapTime = some v → fastest = some f → f ≠ 0 → f ≤ v →
        Recorder.lap_filter fastest e = none) ∧
    (∀ (fastest : Option ℚ) (e : Recorder.StandingsEntry),
      e.bestLapSectorTime1 = none ∨ e.bestLapSectorTime2 = none →
        Recorder.lap_filter fastest e = none) ∧
    (Recorder.record_laps none
      [⟨some 95, some 30, some 60, "GT3", "D"⟩,
       ⟨some (949/10), some 30, some 60, "GT3", "D"⟩,
       ⟨some 96, some 30, some 60, "GT3", "D"⟩,
       ⟨some (949/10), some 30, some 60, "GT3", "D"⟩,
       ⟨some 94, some 30, some 60, "GT3", "D"⟩] = [95, 949/10, 94]) := by
  refine ⟨?_, ?_, ?_, ?_, ?_⟩
  · intro fastest e h
    simp [Recorder.lap_filter, h]
  · intro fastest e v hbt hv
    simp only [Recorder.lap_filter, hbt]
    rw [if_pos (Or.inr hv)]
  · intro fastest e v f hbt hf hne hle
    simp only [Recorder.lap_filter, hbt, hf]
    have h2 : (Recorder.pyTruthy (some f) && decide ((some f).getD 0 ≤ v)) = true := by
      simp [Recorder.pyTruthy, hne, hle]
    by_cases h1 : v = 0 ∨ v < 10
    · rw [if_pos h1]
    · rw [if_neg h1, if_pos h2]
  · intro fastest e hd
    cases hbt : e.bestLapTime with
    | none => simp [Recorder.lap_filter, hbt]
    | some v =>
        rcases hd with h1 | h2
        · simp only [Recorder.lap_filter, hbt, h1]
          repeat' split
          all_goals simp_all
        · simp only [Recorder.lap_filter, hbt, h2]
          repeat' split
          all_goals simp_all
  · norm_num [Recorder.record_laps, Recorder.lap_filter, Recorder.pyTruthy]

/-- Witness for the amended C4 at concrete inputs. -/
theorem claim_C4_recorder_filter_amended_witness :
    Recorder.lap_filter none ⟨none, some 30, some 60, "GT3", "D"⟩ = none ∧
    Recorder.lap_filter none ⟨some 5, some 30, some 60, "GT3", "D"⟩ = none ∧
    Recorder.lap_filter (some 94) ⟨some 95, some 30, some 60, "GT3", "D"⟩ = none ∧
    Recorder.lap_filter none ⟨some 95, none, some 60, "GT3", "D"⟩ = none :=
  ⟨claim_C4_recorder_filter_amended.1 none ⟨none, some 30, some 60, "GT3", "D"⟩ rfl,
   claim_C4_recorder_filter_amended.2.1 none ⟨some 5, some 30, some 60, "GT3", "D"⟩ 5 rfl
     (by norm_num),
   claim_C4_recorder_filter_amended.2.2.1 (some 94) ⟨some 95, some 30, some 60, "GT3", "D"⟩
     95 94 rfl rfl (by norm_num) (by norm_num),
   claim_C4_recorder_filter_amended.2.2.2.1 none ⟨some 95, none, some 60, "GT3", "D"⟩
     (Or.inl rfl)⟩

/-! ## Helper lemmas for the weather matcher -/

theorem Weather.slotMatches_true {w req : Weather.WeatherSlot}
    (h : Weather.slotMatches w req = true) :
    w.condition = req.condition ∧ |w.temperature - req.temperature| ≤ Weather.TEMP_TOLERANCE ∧
      |w.rain - req.rain| ≤ Weather.RAIN_TOLERANCE := by
  simpa [Weather.slotMatches, and_assoc] using h

/-- Index into a slot list, defaulting past the end. -/
def Weather.nthSlot : List Weather.WeatherSlot → ℕ → Weather.WeatherSlot
  | [], _ => ⟨0, 0, 0⟩
  | a :: _, 0 => a
  | _ :: t, i + 1 => Weather.nthSlot t i

theorem Weather.nthSlot_mem {l : List Weather.WeatherSlot} {i : ℕ} (h : i < l.length) :
    Weather.nthSlot l i ∈ l := by
  induction l generalizing i with
  | nil => simp at h
  | cons a t ih =>
      cases i with
      | zero => exact List.mem_cons_self a t
      | succ j => exact List.mem_cons_of_mem _ (ih (by simpa using h))

theorem Weather.weather_matches_cons_pos (w : Weather.WeatherSlot)
    (rest : List Weather.WeatherSlot) (req : Weather.WeatherSlot)
    (h : Weather.slotMatches w req = true) :
    Weather.weather_matches (w :: rest) req =
      match Weather.weather_matches rest req with
      | (b, none) => (b, none)
      | (b, some i) => (b, some (i + 1)) := by
  obtain ⟨h1, h2, h3⟩ := Weather.slotMatches_true h
  simp only [Weather.weather_matches]
  rw [if_neg (by simp [h1]), if_neg (not_lt.mpr h2), if_neg (not_lt.mpr h3)]

theorem Weather.weather_matches_cons_neg (w : Weather.WeatherSlot)
    (rest : List Weather.WeatherSlot) (req : Weather.WeatherSlot)
    (h : Weather.slotMatches w req = false) :
    Weather.weather_matches (w :: rest) req = (false, some 0) := by
  simp only [Weather.weather_matches]
  by_cases c1 : w.condition ≠ req.condition
  · rw [if_pos c1]
  · rw [if_neg c1]
    by_cases c2 : Weather.TEMP_TOLERANCE < |w.temperature - req.temperature|
    · rw [if_pos c2]
    · rw [if_neg c2]
      by_cases c3 : Weather.RAIN_TOLERANCE < |w.rain - req.rain|
      · rw [if_pos c3]
      · exfalso
        have : Weather.slotMatches w req = true := by
          simp [Weather.slotMatches, not_not.mp c1, not_lt.mp c2, not_lt.mp c3]
        simp [this] at h

theorem Weather.weather_matches_shape (slots : List Weather.WeatherSlot)
    (req : Weather.WeatherSlot) :
    Weather.weather_matches slots req = (true, none) ∨
      ∃ i, Weather.weather_matches slots req = (false, some i) := by
  induction slots with
  | nil => left; rfl
  | cons w rest ih =>
      by_cases h : Weather.slotMatches w req = true
      · rw [Weather.weather_matches_cons_pos w rest req h]
        rcases ih with h1 | ⟨i, h2⟩
        · left; rw [h1]
        · right; exact ⟨i + 1, by rw [h2]⟩
      · right
        exact ⟨0, Weather.weather_matches_cons_neg w rest req (by simpa using h)⟩

theorem Weather.weather_matches_all (slots : List Weather.WeatherSlot)
    (req : Weather.WeatherSlot) :
    Weather.weather_matches slots req = (true, none) ↔
      ∀ w ∈ slots, Weather.slotMatches w req = true := by
  induction slots with
  | nil => simp [Weather.weather_matches]
  | cons w rest ih =>
      by_cases h : Weather.slotMatches w req = true
      · rw [Weather.weather_matches_cons_pos w rest req h]
        rcases Weather.weather_matches_shape rest req with hr | ⟨i, hr⟩
        · rw [hr]
          simp only [List.mem_cons]
          constructor
          · intro _ w' hw'
            rcases hw' with rfl | hw'
            · exact h
            · exact (ih.mp hr) w' hw'
          · intro _; trivial
        · rw [hr]
          simp only [List.mem_cons]
          constructor
          · intro heq; exact absurd heq (by simp)
          · intro hall
            have hrt : Weather.weather_matches rest req = (true, none) :=
              ih.mpr (fun w' hw' => hall w' (Or.inr hw'))
            rw [hrt] at hr
            exact absurd hr (by simp)
      · rw [Weather.weather_matches_cons_neg w rest req (by simpa using h)]
        constructor
        · intro heq; exact absurd heq (by simp)
        · intro hall
          exact absurd (hall w (List.mem_cons_self w rest)) h

theorem Weather.weather_matches_first_fail (slots : List Weather.WeatherSlot)
    (req : Weather.WeatherSlot) (i : ℕ) :
    Weather.weather_matches slots req = (false, some i) ↔
      (i < slots.length ∧ Weather.slotMatches (Weather.nthSlot slots i) req = false ∧
       ∀ j < i, Weather.slotMatches (Weather.nthSlot slots j) req = true) := by
  induction slots generalizing i with
  | nil => simp [Weather.weather_matches]
  | cons w rest ih =>
      by_cases h : Weather.slotMatches w req = true
      · rw [Weather.weather_matches_cons_pos w rest req h]
        rcases Weather.weather_matches_shape rest req with hr | ⟨k, hr⟩
        · rw [hr]
          constructor
          · intro heq; exact absurd heq (by simp)
          · rintro ⟨hlen, hfail, -⟩
            exfalso
            cases i with
            | zero => simp [Weather.nthSlot, h] at hfail
            | succ j =>
                have hj : j < rest.length := by simpa using hlen
                have hpass := (Weather.weather_matches_all rest req).mp hr
                  (Weather.nthSlot rest j) (Weather.nthSlot_mem hj)
                simp only [Weather.nthSlot] at hfail
                simp [hpass] at hfail
        · rw [hr]
          obtain ⟨hk, hkfail, hkbefore⟩ := (ih k).mp hr
          constructor
          · intro heq
            have hik : i = k + 1 := by
              simp only [Prod.mk.injEq, Option.some.injEq] at heq
              omega
            subst hik
            refine ⟨by simpa using Nat.succ_lt_succ hk, by simpa [Weather.nthSlot] using hkfail, ?_⟩
            intro j hj
            cases j with
            | zero => simpa [Weather.nthSlot] using h
            | succ j' =>
                simp only [Weather.nthSlot]
                exact hkbefore j' (by omega)
          · rintro ⟨hlen, hfail, hbefore⟩
            cases i with
            | zero => simp [Weather.nthSlot, h] at hfail
            | succ j =>
                have hrj : Weather.weather_matches rest req = (false, some j) := by
                  refine (ih j).mpr ⟨by simpa using hlen, by simpa [Weather.nthSlot] using hfail, ?_⟩
                  intro j' hj'
                  have := hbefore (j' + 1) (by omega)
                  simpa [Weather.nthSlot] using this
                rw [hrj] at hr
                simp only [Prod.mk.injEq, Option.some.injEq] at hr
                simp [hr]
      · rw [Weather.weather_matches_cons_neg w rest req (by simpa using h)]
        constructor
        · intro heq
          have hi : i = 0 := by
            simp only [Prod.mk.injEq, Option.some.injEq] at heq
            omega
          subst hi
          refine ⟨by simp, by simpa [Weather.nthSlot] using h, by omega⟩
        · rintro ⟨hlen, hfail, hbefore⟩
          cases i with
          | zero => rfl
          | succ j =>
              have h0 := hbefore 0 (by omega)
              simp only [Weather.nthSlot] at h0
              simp [h0] at h

/-- C5.  Weather matcher contract: `weather_matches` returns
`(false, some i)` exactly when `i` is the first index whose slot differs
in condition, or by more than 1.0 in temperature, or by more than 5.0 in
rain, and `(true, none)` exactly when every slot matches; tolerance
boundaries are accepted (required 25.0, observed 26.0 matches) and
exceeded boundaries rejected (observed 26.01 mismatches). -/
theorem claim_C5_weather_matcher :
    (∀ (slots : List Weather.WeatherSlot) (req : Weather.WeatherSlot),
      Weather.weather_matches slots req = (true, none) ↔
        ∀ w ∈ slots, Weather.slotMatches w req = true) ∧
    (∀ (slots : List Weather.WeatherSlot) (req : Weather.WeatherSlot) (i : ℕ),
      Weather.weather_matches slots req = (false, some i) ↔
        (i < slots.length ∧ Weather.slotMatches (Weather.nthSlot slots i) req = false ∧
         ∀ j < i, Weather.slotMatches (Weather.nthSlot slots j) req = true)) ∧
    Weather.weather_matches [⟨0, 26, 0⟩] ⟨0, 25, 0⟩ = (true, none) ∧
    Weather.weather_matches [⟨0, 2601/100, 0⟩] ⟨0, 25, 0⟩ = (false, some 0) := by
  refine ⟨Weather.weather_matches_all, Weather.weather_matches_first_fail, ?_, ?_⟩
  · norm_num [Weather.weather_matches, Weather.TEMP_TOLERANCE, Weather.RAIN_TOLERANCE]
  · norm_num [Weather.weather_matches, Weather.TEMP_TOLERANCE, Weather.RAIN_TOLERANCE, lt_abs]

/-- C6.  `validate_session` performs its checks in the declared order -
standings, multiple drivers, session state, car lookup, practice session,
leaderboard config, car class, weather read, weather match, grip - and
short-circuits at the first failure; in particular whenever the car class
check fails the result is the class error and never a weather error,
regardless of the weather. -/
theorem claim_C6_validator_order :
    ∀ (cm : String → Option String) (s : Validator.SessionSnapshot),
      (s.standings = [] → Validator.validate_session cm s = .failStandings) ∧
      (s.standings ≠ [] → 1 < s.standings.length →
        Validator.validate_session cm s = .failMultipleDrivers) ∧
      (s.standings ≠ [] → s.standings.length ≤ 1 → s.session_ok = false →
        Validator.validate_session cm s = .failSessionState) ∧
      (s.standings ≠ [] → s.standings.length ≤ 1 → s.session_ok = true →
        cm s.selectedCarSig = none →
        Validator.validate_session cm s = .failUnknownCar s.selectedCarSig) ∧
      (∀ car, s.standings ≠ [] → s.standings.length ≤ 1 → s.session_ok = true →
        cm s.selectedCarSig = some car → s.gameSession ≠ "PRACTICE1" →
        Validator.validate_session cm s = .failNotPractice) ∧
      (∀ car, s.standings ≠ [] → s.standings.length ≤ 1 → s.session_ok = true →
        cm s.selectedCarSig = some car → s.gameSession = "PRACTICE1" →
        s.lb_info = none →
        Validator.validate_session cm s = .failNoLeaderboard) ∧
      (∀ car lb, s.standings ≠ [] → s.standings.length ≤ 1 → s.session_ok = true →
        cm s.selectedCarSig = some car → s.gameSession = "PRACTICE1" →
        s.lb_info = some lb →
        Validator.classAllowed lb (Validator.driverClass s) = false →
        Validator.validate_session cm s =
          .failWrongClass (Validator.driverClass s) lb.classes) ∧
      ((∀ lb, s.lb_info = some lb →
          Validator.classAllowed lb (Validator.driverClass s) = false) →
        (∀ i, Validator.validate_session cm s ≠ .failWeatherMismatch i) ∧
        Validator.validate_session cm s ≠ .failWeatherRead) ∧
      (∀ car lb, s.standings ≠ [] → s.standings.length ≤ 1 → s.session_ok = true →
        cm s.selectedCarSig = some car → s.gameSession = "PRACTICE1" →
        s.lb_info = some lb →
        Validator.classAllowed lb (Validator.driverClass s) = true →
        s.weather = [] →
        Validator.validate_session cm s = .failWeatherRead) ∧
      (∀ car lb, s.standings ≠ [] → s.standings.length ≤ 1 → s.session_ok = true →
        cm s.selectedCarSig = some car → s.gameSession = "PRACTICE1" →
        s.lb_info = some lb →
        Validator.classAllowed lb (Validator.driverClass s) = true →
        s.weather ≠ [] →
        (Weather.weather_matches s.weather lb.weather).1 = false →
        Validator.validate_session cm s =
          .failWeatherMismatch (Weather.weather_matches s.weather lb.weather).2) ∧
      (∀ car lb, s.standings ≠ [] → s.standings.length ≤ 1 → s.session_ok = true →
        cm s.selectedCarSig = some car → s.gameSession = "PRACTICE1" →
        s.lb_info = some lb →
        Validator.classAllowed lb (Validator.driverClass s) = true →
        s.weather ≠ [] →
        (Weather.weather_matches s.weather lb.weather).1 = true →
        (s.grip_level = none ∨ lb.grip_level = none) →
        Validator.validate_session cm s = .failGripRead) ∧
      (∀ car lb g rg, s.standings ≠ [] → s.standings.length ≤ 1 → s.session_ok = true →
        cm s.selectedCarSig = some car → s.gameSession = "PRACTICE1" →
        s.lb_info = some lb →
        Validator.classAllowed lb (Validator.driverClass s) = true →
        s.weather ≠ [] →
        (Weather.weather_matches s.weather lb.weather).1 = true →
        s.grip_level = some g → lb.grip_level = some rg → g ≠ rg →
        Validator.validate_session cm s = .failGripMismatch rg g) := by
  intro cm s
  refine ⟨?_, ?_, ?_, ?_, ?_, ?_, ?_, ?_, ?_, ?_, ?_, ?_⟩
  · intro h
    simp [Validator.validate_session, h]
  · intro h1 h2
    simp [Validator.validate_session, h1, h2]
  · intro h1 h2 h3
    simp [Validator.validate_session, h1, Nat.not_lt.mpr h2, h3]
  · intro h1 h2 h3 h4
    simp [Validator.validate_session, h1, Nat.not_lt.mpr h2, h3, h4]
  · intro car h1 h2 h3 h4 h5
    simp [Validator.validate_session, h1, Nat.not_lt.mpr h2, h3, h4, h5]
  · intro car h1 h2 h3 h4 h5 h6
    simp [Validator.validate_session, h1, Nat.not_lt.mpr h2, h3, h4, h5, h6]
  · intro car lb h1 h2 h3 h4 h5 h6 h7
    simp only [Validator.classAllowed] at h7
    simp [Validator.validate_session, h1, Nat.not_lt.mpr h2, h3, h4, h5, h6, h7]
  · intro hcls
    constructor
    · intro i
      unfold Validator.validate_session
      repeat' split
      all_goals simp_all [Validator.classAllowed]
    · unfold Validator.validate_session
      repeat' split
      all_goals simp_all [Validator.classAllowed]
  · intro car lb h1 h2 h3 h4 h5 h6 h7 h8
    simp only [Validator.classAllowed] at h7
    simp [Validator.validate_session, h1, Nat.not_lt.mpr h2, h3, h4, h5, h6, h7, h8]
  · intro car lb h1 h2 h3 h4 h5 h6 h7 h8 h9
    simp only [Validator.classAllowed] at h7
    simp [Validator.validate_session, h1, Nat.not_lt.mpr h2, h3, h4, h5, h6, h7, h8, h9]
  · intro car lb h1 h2 h3 h4 h5 h6 h7 h8 h9 h10
    simp only [Validator.classAllowed] at h7
    rcases h10 with h10 | h10
    · simp [Validator.validate_session, h1, Nat.not_lt.mpr h2, h3, h4, h5, h6, h7, h8, h9, h10]
    · simp [Validator.validate_session, h1, Nat.not_lt.mpr h2, h3, h4, h5, h6, h7, h8, h9, h10]
      split <;> simp_all
  · intro car lb g rg h1 h2 h3 h4 h5 h6 h7 h8 h9 h10 h11 h12
    simp only [Validator.classAllowed] at h7
    simp [Validator.validate_session, h1, Nat.not_lt.mpr h2, h3, h4, h5, h6, h7, h8, h9, h10,
      h11, h12]

/-- A concrete snapshot in which the car class is not allowed and the
weather also mismatches. -/
def Validator.exampleSnapshot : Validator.SessionSnapshot where
  standings := [⟨some 94, some 30, some 60, "LMP2", "D"⟩]
  session_ok := true
  selectedCarSig := "sig1"
  gameSession := "PRACTICE1"
  track := "LEMANSWEC"
  lb_info := some ⟨[0], ⟨0, 25, 0⟩, some 1⟩
  weather := [⟨4, 25, 0⟩]
  grip_level := some 1

/-- The car-model table used by the C6 witness. -/
def Validator.exampleCarModels : String → Option String :=
  fun sig => if sig = "sig1" then some "Ferrari 499P" else none

/-- Witness for C6: on the snapshot above the validator reports the class
error, and no weather error, even though the weather also mismatches. -/
theorem claim_C6_validator_order_witness :
    Validator.validate_session Validator.exampleCarModels Validator.exampleSnapshot =
      .failWrongClass "LMP2" [0] ∧
    (∀ i, Validator.validate_session Validator.exampleCarModels Validator.exampleSnapshot ≠
      .failWeatherMismatch i) ∧
    Validator.validate_session Validator.exampleCarModels Validator.exampleSnapshot ≠
      .failWeatherRead := by
  have h := claim_C6_validator_order Validator.exampleCarModels Validator.exampleSnapshot
  refine ⟨?_, ?_, ?_⟩
  · exact h.2.2.2.2.2.2.1 "Ferrari 499P" ⟨[0], ⟨0, 25, 0⟩, some 1⟩
      (by simp [Validator.exampleSnapshot]) (by simp [Validator.exampleSnapshot]) rfl
      (by simp [Validator.exampleCarModels, Validator.exampleSnapshot]) rfl rfl
      (by simp [Validator.classAllowed, Validator.driverClass, Validator.exampleSnapshot,
        Validator.CAR_CLASSES])
  · exact (h.2.2.2.2.2.2.2.1 (by
      intro lb' hlb
      simp [Validator.exampleSnapshot] at hlb
      subst hlb
      simp [Validator.classAllowed, Validator.driverClass, Validator.exampleSnapshot,
        Validator.CAR_CLASSES])).1
  · exact (h.2.2.2.2.2.2.2.1 (by
      intro lb' hlb
      simp [Validator.exampleSnapshot] at hlb
      subst hlb
      simp [Validator.classAllowed, Validator.driverClass, Validator.exampleSnapshot,
        Validator.CAR_CLASSES])).2

set_option maxHeartbeats 2000000 in
/-- C7.  Submit endpoint validation and statuses: on a non-empty track, a
blacklisted user gets 403 before anything else; with a parsed body, a lap
time of 0 is rejected 400 and a sector1 of 0 is rejected 400, while the
sentinel sector1 = -1 passes validation; a fully valid body gets 404 when
the track has no leaderboard and 200 with the success message when it
does, whatever the stored state (the DB accept/reject result is ignored). -/
theorem claim_C7_submit_endpoint :
    ∀ (track : String) (black : Bool) (body : Option Api.SubmitBody)
      (lb : Bool) (store : DB.LapStore) (uid : String),
      (track ≠ "" → black = true →
        (Api.submit_time track black body lb store uid).1 =
          .forbidden "You are blacklisted") ∧
      (∀ b td, track ≠ "" → black = false → body = some b → b.time_data = some td →
        td.lap = some 0 →
        ∃ msg, (Api.submit_time track black body lb store uid).1 = .badRequest msg) ∧
      (∀ b td, track ≠ "" → black = false → body = some b → b.time_data = some td →
        td.sector1 = some 0 →
        ∃ msg, (Api.submit_time track black body lb store uid).1 = .badRequest msg) ∧
      (∀ car dn cc lap s1 s2, track ≠ "" → black = false →
        body = some ⟨some ⟨some lap, some s1, some s2⟩, some car, some dn, some cc⟩ →
        Api.pyStrip car ≠ "" → Api.pyStrip dn ≠ "" → Api.pyStrip cc ≠ "" →
        0 < lap → (s1 = -1 ∨ 0 < s1) → (s2 = -1 ∨ 0 < s2) →
        dn.length ≤ 100 → car.length ≤ 100 → cc.length ≤ 50 →
        ((lb = false →
            (Api.submit_time track black body lb store uid).1 =
              .notFound "Leaderboard not found") ∧
         (lb = true →
            (Api.submit_time track black body lb store uid).1 =
              .ok "Time submitted successfully"))) := by
  intro track black body lb store uid
  refine ⟨?_, ?_, ?_, ?_⟩
  · intro htrack hblack
    simp [Api.submit_time, htrack, hblack]
  · intro b td htrack hblack hbody htd hlap
    simp only [Api.submit_time, hbody, htd, hlap, if_neg htrack, hblack, Bool.false_eq_true,
      if_false]
    repeat' split
    all_goals first
      | exact ⟨_, rfl⟩
      | simp_all
  · intro b td htrack hblack hbody htd hs1
    simp only [Api.submit_time, hbody, htd, hs1, if_neg htrack, hblack, Bool.false_eq_true,
      if_false]
    repeat' split
    all_goals first
      | exact ⟨_, rfl⟩
      | simp_all
  · intro car dn cc lap s1 s2 htrack hblack hbody hcar hdn hcc hlap hs1 hs2 hdnl hcarl hccl
    have hs1' : ¬(s1 ≠ -1 ∧ s1 ≤ 0) := by
      rcases hs1 with h | h
      · simp [h]
      · intro hc
        exact absurd hc.2 (not_le.mpr h)
    have hs2' : ¬(s2 ≠ -1 ∧ s2 ≤ 0) := by
      rcases hs2 with h | h
      · simp [h]
      · intro hc
        exact absurd hc.2 (not_le.mpr h)
    constructor
    · intro hlb
      simp [Api.submit_time, hbody, if_neg htrack, hblack, hcar, hdn, hcc,
        not_le.mpr hlap, hs1', hs2', not_lt.mpr hdnl, not_lt.mpr hcarl, not_lt.mpr hccl, hlb]
    · intro hlb
      simp [Api.submit_time, hbody, if_neg htrack, hblack, hcar, hdn, hcc,
        not_le.mpr hlap, hs1', hs2', not_lt.mpr hdnl, not_lt.mpr hcarl, not_lt.mpr hccl, hlb]

set_option maxHeartbeats 1000000 in
/-- Witness for C7 at concrete requests. -/
theorem claim_C7_submit_endpoint_witness :
    (Api.submit_time "LEMANSWEC" true none true (fun _ _ => none) "u1").1 =
      .forbidden "You are blacklisted" ∧
    (∃ msg, (Api.submit_time "LEMANSWEC" false
        (some ⟨some ⟨some 0, some 30, some 60⟩, some "Car", some "Dr", some "GT3"⟩)
        true (fun _ _ => none) "u1").1 = .badRequest msg) ∧
    (∃ msg, (Api.submit_time "LEMANSWEC" false
        (some ⟨some ⟨some 94, some 0, some 60⟩, some "Car", some "Dr", some "GT3"⟩)
        true (fun _ _ => none) "u1").1 = .badRequest msg) ∧
    ((Api.submit_time "LEMANSWEC" false
        (some ⟨some ⟨some 94, some (-1), some 60⟩, some "Car", some "Dr", some "GT3"⟩)
        false (fun _ _ => none) "u1").1 = .notFound "Leaderboard not found") ∧
    ((Api.submit_time "LEMANSWEC" false
        (some ⟨some ⟨some 94, some (-1), some 60⟩, some "Car", some "Dr", some "GT3"⟩)
        true (fun _ _ => none) "u1").1 = .ok "Time submitted successfully") := by
  refine ⟨?_, ?_, ?_, ?_, ?_⟩
  · exact (claim_C7_submit_endpoint "LEMANSWEC" true none true (fun _ _ => none) "u1").1
      (by decide) rfl
  · exact (claim_C7_submit_endpoint "LEMANSWEC" false
      (some ⟨some ⟨some 0, some 30, some 60⟩, some "Car", some "Dr", some "GT3"⟩)
      true (fun _ _ => none) "u1").2.1
      ⟨some ⟨some 0, some 30, some 60⟩, some "Car", some "Dr", some "GT3"⟩
      ⟨some 0, some 30, some 60⟩ (by decide) rfl rfl rfl rfl
  · exact (claim_C7_submit_endpoint "LEMANSWEC" false
      (some ⟨some ⟨some 94, some 0, some 60⟩, some "Car", some "Dr", some "GT3"⟩)
      true (fun _ _ => none) "u1").2.2.1
      ⟨some ⟨some 94, some 0, some 60⟩, some "Car", some "Dr", some "GT3"⟩
      ⟨some 94, some 0, some 60⟩ (by decide) rfl rfl rfl rfl
  · exact ((claim_C7_submit_endpoint "LEMANSWEC" false
      (some ⟨some ⟨some 94, some (-1), some 60⟩, some "Car", some "Dr", some "GT3"⟩)
      false (fun _ _ => none) "u1").2.2.2 "Car" "Dr" "GT3" 94 (-1) 60
      (by decide) rfl rfl (by decide) (by decide) (by decide)
      (by norm_num) (Or.inl rfl) (Or.inr (by norm_num))
      (by decide) (by decide) (by decide)).1 rfl
  · exact ((claim_C7_submit_endpoint "LEMANSWEC" false
      (some ⟨some ⟨some 94, some (-1), some 60⟩, some "Car", some "Dr", some "GT3"⟩)
      true (fun _ _ => none) "u1").2.2.2 "Car" "Dr" "GT3" 94 (-1) 60
      (by decide) rfl rfl (by decide) (by decide) (by decide)
      (by norm_num) (Or.inl rfl) (Or.inr (by norm_num))
      (by decide) (by decide) (by decide)).2 rfl

/-- C8.  The recording loop can raise: `record_loop` reads
`session_state.get("inControlOfVehicle", False)` before checking the
`False`/`None` sentinels of `get_session_info`, so when the adapter
reports a transient error (`None`) or a disconnect (`False`) - both
permitted by the external-interface contract - the attribute access raises
`AttributeError` instead of returning a typed outcome. -/
theorem claim_C8_recorder_raises :
    Client.record_iter false none true
      (.val [⟨some 94, some 30, some 60, "GT3", "D"⟩]) .transientErr none none =
      .error .attributeError ∧
    Client.record_iter false none true
      (.val [⟨some 94, some 30, some 60, "GT3", "D"⟩]) .disconnected none none =
      .error .attributeError := by
  constructor <;> rfl

/-- C9.  A `False` from `Backend.submit_time` ends recording through
`on_session_end` with the blacklist message, and the HTTP client maps both
403 (blacklisted) and 404 (leaderboard deleted) responses to `False`, so a
mid-session leaderboard deletion terminates recording exactly as a
blacklist rejection does. -/
theorem claim_C9_blacklist_termination :
    (∀ m, Client.post 403 m = .fls ∧ Client.post 404 m = .fls) ∧
    (∀ m, Client.submit_time_client 403 m = some false ∧
      Client.submit_time_client 404 m = some false) ∧
    (∀ (m : Option String) (fastest : Option ℚ) (e : Recorder.StandingsEntry)
        (fx : Bool) (lap s1 s2 : ℚ),
      Recorder.lap_filter fastest e = some (lap, s1, s2) →
        Client.record_iter false none fx (.val [e]) (.val (some true)) fastest
            (Client.submit_time_client 403 m) =
          .ok (fx, .sessionEnd "Submission failed. Blacklisted. Waiting for session end...") ∧
        Client.record_iter false none fx (.val [e]) (.val (some true)) fastest
            (Client.submit_time_client 404 m) =
          .ok (fx, .sessionEnd "Submission failed. Blacklisted. Waiting for session end...")) := by
  refine ⟨fun m => ⟨rfl, rfl⟩, fun m => ⟨rfl, rfl⟩, ?_⟩
  intro m fastest e fx lap s1 s2 h
  constructor <;>
    (simp [Client.record_iter, Client.submit_time_client, Client.post,
      Client.py_get_inControl, h]; rfl)

/-- Witness for C9 at a concrete accepted sample. -/
theorem claim_C9_blacklist_termination_witness :
    Client.record_iter false none true
        (.val [⟨some 94, some 30, some 60, "GT3", "D"⟩]) (.val (some true)) none
        (Client.submit_time_client 403 none) =
      .ok (true, .sessionEnd "Submission failed. Blacklisted. Waiting for session end...") ∧
    Client.record_iter false none true
        (.val [⟨some 94, some 30, some 60, "GT3", "D"⟩]) (.val (some true)) none
        (Client.submit_time_client 404 none) =
      .ok (true, .sessionEnd "Submission failed. Blacklisted. Waiting for session end...") :=
  claim_C9_blacklist_termination.2.2 none none ⟨some 94, some 30, some 60, "GT3", "D"⟩
    true 94 30 60 (by norm_num [Recorder.lap_filter, Recorder.pyTruthy])

/-- C10.  `weather_matches` on an empty observed list is vacuously true
for every required weather; only the validator's emptiness check before
the call (which fails with the weather read error) keeps an empty weather
read from counting as a match. -/
theorem claim_C10_empty_weather :
    (∀ req : Weather.WeatherSlot, Weather.weather_matches [] req = (true, none)) ∧
    (∀ (cm : String → Option String) (s : Validator.SessionSnapshot) (car : String)
        (lb : Validator.LBInfo),
      s.standings ≠ [] → s.standings.length ≤ 1 → s.session_ok = true →
      cm s.selectedCarSig = some car → s.gameSession = "PRACTICE1" →
      s.lb_info = some lb →
      Validator.classAllowed lb (Validator.driverClass s) = true →
      s.weather = [] →
      Validator.validate_session cm s = .failWeatherRead) := by
  refine ⟨fun req => rfl, ?_⟩
  intro cm s car lb h1 h2 h3 h4 h5 h6 h7 h8
  simp only [Validator.classAllowed] at h7
  simp [Validator.validate_session, h1, Nat.not_lt.mpr h2, h3, h4, h5, h6, h7, h8]

/-- A snapshot with allowed class but an empty weather read. -/
def Validator.exampleSnapshot2 : Validator.SessionSnapshot where
  standings := [⟨some 94, some 30, some 60, "LMP2", "D"⟩]
  session_ok := true
  selectedCarSig := "sig1"
  gameSession := "PRACTICE1"
  track := "LEMANSWEC"
  lb_info := some ⟨[3], ⟨0, 25, 0⟩, some 1⟩
  weather := []
  grip_level := some 1

/-- Witness for C10 at a concrete snapshot. -/
theorem claim_C10_empty_weather_witness :
    Validator.validate_session Validator.exampleCarModels Validator.exampleSnapshot2 =
      .failWeatherRead :=
  claim_C10_empty_weather.2 Validator.exampleCarModels Validator.exampleSnapshot2
    "Ferrari 499P" ⟨[3], ⟨0, 25, 0⟩, some 1⟩
    (by simp [Validator.exampleSnapshot2]) (by simp [Validator.exampleSnapshot2]) rfl
    (by simp [Validator.exampleCarModels, Validator.exampleSnapshot2]) rfl rfl
    (by simp [Validator.classAllowed, Validator.driverClass, Validator.exampleSnapshot2,
      Validator.CAR_CLASSES]) rfl

/-- Witness for C2: even with a matching stored row, a worse lap (80 vs
stored 90 is better, use 95 worse - either way) is appended and accepted. -/
theorem claim_C2_dead_update_branch_witness :
    DBOld.old_submit_lap_time
      [⟨"spa", "u1", "D", "C", "GT3", some 90, some 30, some 60⟩]
      "spa" "u1" "D" "C" "GT3" ⟨some 95, some 30, some 60⟩ =
      (true, [⟨"spa", "u1", "D", "C", "GT3", some 90, some 30, some 60⟩,
              ⟨"spa", "u1", "D", "C", "GT3", some 95, some 30, some 60⟩]) :=
  claim_C2_dead_update_branch
    [⟨"spa", "u1", "D", "C", "GT3", some 90, some 30, some 60⟩]
    "spa" "u1" "D" "C" "GT3" ⟨some 95, some 30, some 60⟩

/-- Witness for C5: the all-slots characterization applied at the
boundary example. -/
theorem claim_C5_weather_matcher_witness :
    Weather.weather_matches [⟨0, 26, 0⟩] ⟨0, 25, 0⟩ = (true, none) :=
  (claim_C5_weather_matcher.1 [⟨0, 26, 0⟩] ⟨0, 25, 0⟩).mpr (by
    intro w hw
    simp only [List.mem_singleton] at hw
    subst hw
    norm_num [Weather.slotMatches, Weather.TEMP_TOLERANCE, Weather.RAIN_TOLERANCE])
